import Mathlib

/-!
MimeHandlerViewGuest and StreamContainer

A shallow embedding of
`chromium_src/extensions/browser/guest_view/mime_handler_view/mime_handler_view_guest.cc`.

Objects become records, member functions become functions from the record to
the updated record, and every call into a collaborator that lives outside the
file (callbacks, the stream handle, the embedder delegate, the event router,
`GuestViewBase::Destroy`) is written to a trace in the order the code makes it.
A null dereference or a failed `DCHECK` makes a function return `none`.
-/

namespace extensions

/-! ## Collaborator types -/

/-- A `GURL`, reduced to its spec string. -/
structure GURL where
  spec : String
deriving DecidableEq, Repr

/-- The default-constructed (empty) `GURL()`. -/
def GURL.empty : GURL := ⟨""⟩

/-- A `base::Closure`, identified by a number so that a trace can say which
closure ran. -/
structure Closure where
  id : Nat
deriving DecidableEq, Repr

/-- The `net::HttpResponseHeaders` of a response, as name/value pairs. -/
abbrev HttpResponseHeaders := List (String × String)

/-- A `content::StreamHandle`; the code reads `GetURL()` from it. -/
structure StreamHandle where
  url : GURL
deriving DecidableEq, Repr

/-- A `content::StreamInfo`, with the members the code reads. `handle` is a
`std::unique_ptr`, so it may be null. -/
structure StreamInfo where
  handle : Option StreamHandle
  original_url : GURL
  mime_type : String
  response_headers : HttpResponseHeaders
deriving DecidableEq, Repr

/-- The response head of a transferrable loader, with the members the code
reads. -/
structure ResourceResponseHead where
  mime_type : String
  headers : HttpResponseHeaders
deriving DecidableEq, Repr

/-- A `content::mojom::TransferrableURLLoader`, with the members the code
reads. -/
structure TransferrableURLLoader where
  url : GURL
  head : ResourceResponseHead
deriving DecidableEq, Repr

/-- Calls that `StreamContainer` makes on objects it does not own the code of. -/
inductive StreamEffect where
  /-- The call `callback.Run()`. -/
  | Run (callback : Closure)
  /-- The call `handle->AddCloseListener(callback)`. -/
  | AddCloseListener (handle : StreamHandle) (callback : Closure)
  /-- The call `handle.reset()` on a non-null handle. -/
  | reset (handle : StreamHandle)
deriving DecidableEq, Repr

/-! ## StreamContainer -/

/-- The data members of `StreamContainer`. The two smart pointers `stream_` and
`transferrable_loader_` are options; `weak_factory_` carries no data. -/
structure StreamContainer where
  stream_ : Option StreamInfo
  embedded_ : Bool
  tab_id_ : Int
  handler_url_ : GURL
  extension_id_ : String
  transferrable_loader_ : Option TransferrableURLLoader
  mime_type_ : String
  original_url_ : GURL
  stream_url_ : GURL
  response_headers_ : HttpResponseHeaders
deriving DecidableEq, Repr

/-- The constructor `StreamContainer::StreamContainer`. Each derived member is
`stream_ ? <from the stream> : <from the loader or the argument>`. The result is
`none` where the C++ dereferences a null pointer: a stream whose `handle` is
null, or neither a stream nor a loader (where `DCHECK(stream_ ||
transferrable_loader_)` fails as well). -/
def StreamContainer.ctor (stream : Option StreamInfo) (tab_id : Int)
    (embedded : Bool) (handler_url : GURL) (extension_id : String)
    (transferrable_loader : Option TransferrableURLLoader) (original_url : GURL) :
    Option StreamContainer :=
  match stream, transferrable_loader with
  | some s, _ =>
    match s.handle with
    | some h =>
      some { stream_ := some s
             embedded_ := embedded
             tab_id_ := tab_id
             handler_url_ := handler_url
             extension_id_ := extension_id
             transferrable_loader_ := transferrable_loader
             mime_type_ := s.mime_type
             original_url_ := s.original_url
             stream_url_ := h.url
             response_headers_ := s.response_headers }
    | none => none
  | none, some l =>
    some { stream_ := none
           embedded_ := embedded
           tab_id_ := tab_id
           handler_url_ := handler_url
           extension_id_ := extension_id
           transferrable_loader_ := some l
           mime_type_ := l.head.mime_type
           original_url_ := original_url
           stream_url_ := l.url
           response_headers_ := l.head.headers }
  | none, none => none

/-- The member function `StreamContainer::Abort`. Without a stream, or with a
stream whose handle is already gone, the callback runs at once. Otherwise the
callback is added to the handle as a close listener, the handle is reset and
`stream_url_` becomes the empty URL. -/
def StreamContainer.Abort (c : StreamContainer) (callback : Closure) :
    StreamContainer × List StreamEffect :=
  match c.stream_ with
  | none => (c, [StreamEffect.Run callback])
  | some s =>
    match s.handle with
    | none => (c, [StreamEffect.Run callback])
    | some h =>
      ({ c with stream_ := some { s with handle := none }, stream_url_ := GURL.empty },
        [StreamEffect.AddCloseListener h callback, StreamEffect.reset h])

/-- The member function `StreamContainer::GetWeakPtr`: it hands out a weak
reference and writes no data member. -/
def StreamContainer.GetWeakPtr (c : StreamContainer) : StreamContainer := c

/-- The member function `StreamContainer::TakeTransferrableURLLoader`:
`return std::move(transferrable_loader_)`, which leaves the member null. -/
def StreamContainer.TakeTransferrableURLLoader (c : StreamContainer) :
    StreamContainer × Option TransferrableURLLoader :=
  ({ c with transferrable_loader_ := none }, c.transferrable_loader_)

/-- One call on a `StreamContainer`. -/
inductive StreamCall where
  | Abort (callback : Closure)
  | GetWeakPtr
  | TakeTransferrableURLLoader
deriving DecidableEq, Repr

/-- What one call on a `StreamContainer` gave back: the loader pointer it
returned, if the call returns one, and the calls it made outward. -/
structure StreamReturn where
  taken : Option (Option TransferrableURLLoader)
  effects : List StreamEffect
deriving DecidableEq, Repr

/-- Run one call on a container. -/
def StreamContainer.call (c : StreamContainer) : StreamCall → StreamContainer × StreamReturn
  | StreamCall.Abort callback => ((c.Abort callback).1, ⟨none, (c.Abort callback).2⟩)
  | StreamCall.GetWeakPtr => (c.GetWeakPtr, ⟨none, []⟩)
  | StreamCall.TakeTransferrableURLLoader =>
    (c.TakeTransferrableURLLoader.1, ⟨some c.TakeTransferrableURLLoader.2, []⟩)

/-- Run a sequence of calls on a container, first call first, collecting what
each gave back. -/
def StreamContainer.calls (c : StreamContainer) : List StreamCall → StreamContainer × List StreamReturn
  | [] => (c, [])
  | k :: ks => ((StreamContainer.calls (c.call k).1 ks).1,
      (c.call k).2 :: (StreamContainer.calls (c.call k).1 ks).2)

/-- The loader pointers returned by the `TakeTransferrableURLLoader` calls of a
run, in call order. -/
def takenLoaders (rs : List StreamReturn) : List (Option TransferrableURLLoader) :=
  rs.filterMap StreamReturn.taken

/-- The number of `TakeTransferrableURLLoader` calls in a sequence. -/
def takeCount (ks : List StreamCall) : Nat :=
  ks.countP (fun k => k = StreamCall.TakeTransferrableURLLoader)

/-- What take-once handoff of `d` looks like over `n` takes: `d` first, null
ever after. -/
def takeOnce (d : TransferrableURLLoader) : Nat → List (Option TransferrableURLLoader)
  | 0 => []
  | n + 1 => some d :: List.replicate n none

/-! ## MimeHandlerViewGuest -/

/-- The `blink::WebFullscreenOptions` argument, which the guest only passes on. -/
structure WebFullscreenOptions where
  token : Nat
deriving DecidableEq, Repr

/-- A `blink::WebGestureEvent`; the code reads `GetType()` from it. -/
structure WebGestureEvent where
  GetType : Nat
deriving DecidableEq, Repr

/-- An extension `Event` as `PluginDoSave` builds it: histogram value, event
name and the argument list. -/
structure Event where
  histogram_value : Nat
  event_name : String
  event_args : List String
deriving DecidableEq, Repr

/-- A `content::RenderWidgetHostView`, reduced to
`GetRenderWidgetHost()->GetRoutingID()`. -/
structure RenderWidgetHostView where
  widget_routing_id : Int
deriving DecidableEq, Repr

/-- A `content::RenderFrameHost`, reduced to `GetView()`, which may be null. -/
structure RenderFrameHost where
  GetView : Option RenderWidgetHostView
deriving DecidableEq, Repr

/-- Calls that the guest makes on objects it does not own the code of. -/
inductive GuestEffect where
  /-- The call `embedder_web_contents()->GetDelegate()->EnterFullscreenModeForTab`. -/
  | EnterFullscreenModeForTab (origin : GURL) (options : WebFullscreenOptions)
  /-- The call `embedder_web_contents()->GetDelegate()->ExitFullscreenModeForTab`. -/
  | ExitFullscreenModeForTab
  /-- The call `GuestViewBase::Destroy(also_delete)`. -/
  | Destroy (also_delete : Bool)
  /-- The call `event_router->DispatchEventToExtension(extension_id, event)`. -/
  | DispatchEventToExtension (extension_id : String) (event : Event)
deriving DecidableEq, Repr

/-- The state of the base class `GuestViewBase` that the guest reads through
`is_full_page_plugin()` and `attached()`. -/
structure GuestViewBase where
  is_full_page_plugin : Bool
  attached : Bool
deriving DecidableEq, Repr

/-- The data members of `MimeHandlerViewGuest` that the embedded functions read
or write. -/
structure MimeHandlerViewGuest extends GuestViewBase where
  stream_ : Option StreamContainer
  embedder_frame_process_id_ : Int
  embedder_frame_routing_id_ : Int
  embedder_widget_routing_id_ : Int
  is_guest_fullscreen_ : Bool
  is_embedder_fullscreen_ : Bool
  plugin_can_save_ : Bool
deriving DecidableEq, Repr

/-- The constructor `MimeHandlerViewGuest::MimeHandlerViewGuest`. The sentinels
`content::ChildProcessHost::kInvalidUniqueID` and `MSG_ROUTING_NONE` are
declared outside the file and come in as arguments, as does the state the base
class constructor leaves. The members without an initialiser in the list
(`stream_`, the two fullscreen flags, `plugin_can_save_`) start null and
`false`. -/
def MimeHandlerViewGuest.ctor (kInvalidUniqueID MSG_ROUTING_NONE : Int)
    (base : GuestViewBase) : MimeHandlerViewGuest :=
  { toGuestViewBase := base
    stream_ := none
    embedder_frame_process_id_ := kInvalidUniqueID
    embedder_frame_routing_id_ := MSG_ROUTING_NONE
    embedder_widget_routing_id_ := MSG_ROUTING_NONE
    is_guest_fullscreen_ := false
    is_embedder_fullscreen_ := false
    plugin_can_save_ := false }

/-- The member function `MimeHandlerViewGuest::GetEmbedderFrame`, over the
frame table `FromID` of `content::RenderFrameHost`. -/
def MimeHandlerViewGuest.GetEmbedderFrame (FromID : Int → Int → Option RenderFrameHost)
    (g : MimeHandlerViewGuest) : Option RenderFrameHost :=
  FromID g.embedder_frame_process_id_ g.embedder_frame_routing_id_

/-- The member function `MimeHandlerViewGuest::SetEmbedderFrame`, with each
failed `DCHECK` giving `none`: `DCHECK_NE(MSG_ROUTING_NONE, routing_id)`,
`DCHECK_EQ(MSG_ROUTING_NONE, embedder_frame_routing_id_)` and, after the
frame lookup, `DCHECK_NE(MSG_ROUTING_NONE, embedder_widget_routing_id_)`. -/
def MimeHandlerViewGuest.SetEmbedderFrame (MSG_ROUTING_NONE : Int)
    (FromID : Int → Int → Option RenderFrameHost) (g : MimeHandlerViewGuest)
    (process_id routing_id : Int) : Option MimeHandlerViewGuest :=
  if MSG_ROUTING_NONE = routing_id then none
  else if MSG_ROUTING_NONE ≠ g.embedder_frame_routing_id_ then none
  else
    let g1 := { g with embedder_frame_process_id_ := process_id,
                       embedder_frame_routing_id_ := routing_id }
    let g2 :=
      match g1.GetEmbedderFrame FromID with
      | some rfh =>
        match rfh.GetView with
        | some view => { g1 with embedder_widget_routing_id_ := view.widget_routing_id }
        | none => g1
      | none => g1
    if MSG_ROUTING_NONE = g2.embedder_widget_routing_id_ then none else some g2

/-- The member function `MimeHandlerViewGuest::SetFullscreenState`: the updated
guest and the returned Boolean. -/
def MimeHandlerViewGuest.SetFullscreenState (g : MimeHandlerViewGuest) (is_fullscreen : Bool) :
    MimeHandlerViewGuest × Bool :=
  if !g.is_full_page_plugin || is_fullscreen == g.is_guest_fullscreen_ then (g, false)
  else
    let g1 := { g with is_guest_fullscreen_ := is_fullscreen }
    if g1.is_guest_fullscreen_ == g1.is_embedder_fullscreen_ then (g1, false)
    else ({ g1 with is_embedder_fullscreen_ := is_fullscreen }, true)

/-- The member function `MimeHandlerViewGuest::EmbedderFullscreenToggled`. It
makes no outward call; the result of `SetFullscreenState(false)` is dropped. -/
def MimeHandlerViewGuest.EmbedderFullscreenToggled (g : MimeHandlerViewGuest)
    (entered_fullscreen : Bool) : MimeHandlerViewGuest × List GuestEffect :=
  let g1 := { g with is_embedder_fullscreen_ := entered_fullscreen }
  if entered_fullscreen then (g1, [])
  else ((g1.SetFullscreenState false).1, [])

/-- The member function `MimeHandlerViewGuest::EnterFullscreenModeForTab`. -/
def MimeHandlerViewGuest.EnterFullscreenModeForTab (g : MimeHandlerViewGuest)
    (origin : GURL) (options : WebFullscreenOptions) :
    MimeHandlerViewGuest × List GuestEffect :=
  if (g.SetFullscreenState true).2 then
    ((g.SetFullscreenState true).1, [GuestEffect.EnterFullscreenModeForTab origin options])
  else ((g.SetFullscreenState true).1, [])

/-- The member function `MimeHandlerViewGuest::ExitFullscreenModeForTab`. -/
def MimeHandlerViewGuest.ExitFullscreenModeForTab (g : MimeHandlerViewGuest) :
    MimeHandlerViewGuest × List GuestEffect :=
  if (g.SetFullscreenState false).2 then
    ((g.SetFullscreenState false).1, [GuestEffect.ExitFullscreenModeForTab])
  else ((g.SetFullscreenState false).1, [])

/-- The member function `MimeHandlerViewGuest::IsFullscreenForTabOrPending`. -/
def MimeHandlerViewGuest.IsFullscreenForTabOrPending (g : MimeHandlerViewGuest) : Bool :=
  g.is_guest_fullscreen_

/-- The member function `MimeHandlerViewGuest::OnRenderFrameHostDeleted`. -/
def MimeHandlerViewGuest.OnRenderFrameHostDeleted (g : MimeHandlerViewGuest)
    (process_id routing_id : Int) : MimeHandlerViewGuest × List GuestEffect :=
  if process_id = g.embedder_frame_process_id_ ∧ routing_id = g.embedder_frame_routing_id_ then
    (g, [GuestEffect.Destroy true])
  else (g, [])

/-- The member function `MimeHandlerViewGuest::PreHandleGestureEvent`, over
`blink::WebInputEvent::IsPinchGestureEventType`. -/
def MimeHandlerViewGuest.PreHandleGestureEvent (IsPinchGestureEventType : Nat → Bool)
    (g : MimeHandlerViewGuest) (event : WebGestureEvent) : Bool :=
  if IsPinchGestureEventType event.GetType then !g.is_full_page_plugin
  else false

/-- The member function `MimeHandlerViewGuest::PluginDoSave`: the guest
afterwards, the returned Boolean and the outward calls. The constants
`events::MIME_HANDLER_PRIVATE_SAVE`, `OnSave::kEventName` and
`extension_misc::kPdfExtensionId` are declared outside the file and come in as
arguments. The result is `none` where `stream_` is dereferenced while null. -/
def MimeHandlerViewGuest.PluginDoSave (MIME_HANDLER_PRIVATE_SAVE : Nat)
    (kEventName kPdfExtensionId : String) (g : MimeHandlerViewGuest) :
    Option (MimeHandlerViewGuest × Bool × List GuestEffect) :=
  if !g.attached || !g.plugin_can_save_ then some (g, false, [])
  else
    match g.stream_ with
    | none => none
    | some stream =>
      let args := [stream.stream_url_.spec]
      let event : Event := ⟨MIME_HANDLER_PRIVATE_SAVE, kEventName, args⟩
      some (g, true, [GuestEffect.DispatchEventToExtension kPdfExtensionId event])

/-- One of the three fullscreen entry points of the guest. -/
inductive FullscreenCall where
  | EnterFullscreenModeForTab (origin : GURL) (options : WebFullscreenOptions)
  | ExitFullscreenModeForTab
  | EmbedderFullscreenToggled (entered_fullscreen : Bool)
deriving DecidableEq, Repr

/-- Run one fullscreen entry point. -/
def MimeHandlerViewGuest.call (g : MimeHandlerViewGuest) :
    FullscreenCall → MimeHandlerViewGuest × List GuestEffect
  | FullscreenCall.EnterFullscreenModeForTab origin options =>
    g.EnterFullscreenModeForTab origin options
  | FullscreenCall.ExitFullscreenModeForTab => g.ExitFullscreenModeForTab
  | FullscreenCall.EmbedderFullscreenToggled entered_fullscreen =>
    g.EmbedderFullscreenToggled entered_fullscreen

/-- Run a sequence of fullscreen entry points, first call first, collecting the
outward calls in order. -/
def MimeHandlerViewGuest.calls (g : MimeHandlerViewGuest) :
    List FullscreenCall → MimeHandlerViewGuest × List GuestEffect
  | [] => (g, [])
  | k :: ks => ((MimeHandlerViewGuest.calls (g.call k).1 ks).1,
      (g.call k).2 ++ (MimeHandlerViewGuest.calls (g.call k).1 ks).2)

/-! ## Sample values -/

/-- A stream handle for a PDF stream. -/
def sampleHandle : StreamHandle := ⟨⟨"blob:stream/1"⟩⟩

/-- A stream with a live handle. -/
def sampleStream : StreamInfo :=
  { handle := some sampleHandle
    original_url := ⟨"https://site.example/doc.pdf"⟩
    mime_type := "application/pdf"
    response_headers := [("content-type", "application/pdf")] }

/-- A transferrable loader. -/
def sampleLoader : TransferrableURLLoader :=
  { url := ⟨"https://site.example/loader.pdf"⟩
    head := { mime_type := "application/pdf", headers := [("content-type", "application/pdf")] } }

/-- The container that the constructor builds from `sampleStream`. -/
def sampleStreamContainer : StreamContainer :=
  { stream_ := some sampleStream
    embedded_ := true
    tab_id_ := 7
    handler_url_ := ⟨"https://handler.example/view"⟩
    extension_id_ := "handler"
    transferrable_loader_ := none
    mime_type_ := "application/pdf"
    original_url_ := ⟨"https://site.example/doc.pdf"⟩
    stream_url_ := ⟨"blob:stream/1"⟩
    response_headers_ := [("content-type", "application/pdf")] }

/-- A freshly constructed full-page guest, with -1 and -2 standing for
`kInvalidUniqueID` and `MSG_ROUTING_NONE`. -/
def sampleGuest : MimeHandlerViewGuest :=
  MimeHandlerViewGuest.ctor (-1) (-2) { is_full_page_plugin := true, attached := false }

/-- A frame table with one live frame, process 1 and routing id 2, whose view
has the widget routing id 5. -/
def sampleFromID (process_id routing_id : Int) : Option RenderFrameHost :=
  if process_id = 1 ∧ routing_id = 2 then some ⟨some ⟨5⟩⟩ else none

/-- An attached full-page guest that holds the sample container and may save. -/
def sampleSavingGuest : MimeHandlerViewGuest :=
  { sampleGuest with attached := true, stream_ := some sampleStreamContainer,
                     plugin_can_save_ := true }

/-- An embedded (not full-page) guest that is marked fullscreen on both sides. -/
def sampleEmbeddedGuest : MimeHandlerViewGuest :=
  { sampleGuest with is_full_page_plugin := false, is_guest_fullscreen_ := true,
                     is_embedder_fullscreen_ := true }

/-- The sample guest after `SetEmbedderFrame(1, 2)` over `sampleFromID`. -/
def sampleFramedGuest : MimeHandlerViewGuest :=
  { sampleGuest with embedder_frame_process_id_ := 1, embedder_frame_routing_id_ := 2,
                     embedder_widget_routing_id_ := 5 }

/-! ## StreamContainer: theorems -/

/-- On a container without a stream, a call leaves every member but
`transferrable_loader_` alone. -/
theorem StreamContainer.call_of_no_stream (c : StreamContainer) (k : StreamCall)
    (h : c.stream_ = none) :
    (c.call k).1 = { c with transferrable_loader_ := (c.call k).1.transferrable_loader_ } := by
  cases c
  simp only at h
  subst h
  cases k <;> simp [StreamContainer.call, StreamContainer.Abort, StreamContainer.GetWeakPtr,
    StreamContainer.TakeTransferrableURLLoader]

/-- The loader member after one call: null after a take, untouched otherwise. -/
theorem StreamContainer.call_loader (c : StreamContainer) (k : StreamCall) :
    (c.call k).1.transferrable_loader_ =
      if k = StreamCall.TakeTransferrableURLLoader then none else c.transferrable_loader_ := by
  cases k with
  | Abort callback =>
    simp only [StreamContainer.call, StreamContainer.Abort]
    cases c.stream_ with
    | none => simp
    | some s => cases hs : s.handle <;> simp [hs]
  | GetWeakPtr => simp [StreamContainer.call, StreamContainer.GetWeakPtr]
  | TakeTransferrableURLLoader =>
    simp [StreamContainer.call, StreamContainer.TakeTransferrableURLLoader]

/-- The takes of a run, unfolded by one call. -/
theorem StreamContainer.calls_taken_cons (c : StreamContainer) (k : StreamCall)
    (ks : List StreamCall) :
    takenLoaders (c.calls (k :: ks)).2 =
      (if k = StreamCall.TakeTransferrableURLLoader then [c.transferrable_loader_] else []) ++
        takenLoaders ((c.call k).1.calls ks).2 := by
  cases k <;> simp [StreamContainer.calls, StreamContainer.call, takenLoaders,
    StreamContainer.TakeTransferrableURLLoader]

/-- The number of takes, unfolded by one call. -/
theorem takeCount_cons (k : StreamCall) (ks : List StreamCall) :
    takeCount (k :: ks) =
      takeCount ks + (if k = StreamCall.TakeTransferrableURLLoader then 1 else 0) := by
  simp [takeCount, List.countP_cons]

/-- Once the loader member is null, every take of a run returns null. -/
theorem StreamContainer.calls_taken_of_null (ks : List StreamCall) :
    ∀ c : StreamContainer, c.transferrable_loader_ = none →
      takenLoaders (c.calls ks).2 = List.replicate (takeCount ks) none := by
  induction ks with
  | nil => intro c _; rfl
  | cons k ks ih =>
    intro c hc
    have hl : (c.call k).1.transferrable_loader_ = none := by
      rw [StreamContainer.call_loader, hc]; simp
    rw [StreamContainer.calls_taken_cons, takeCount_cons, ih _ hl, hc]
    by_cases hk : k = StreamCall.TakeTransferrableURLLoader
    · simp [hk, List.replicate_succ]
    · simp [hk]

/-- While the loader member holds `d`, the takes of a run return `d` once and
null afterwards. -/
theorem StreamContainer.calls_taken_of_loader (d : TransferrableURLLoader) (ks : List StreamCall) :
    ∀ c : StreamContainer, c.transferrable_loader_ = some d →
      takenLoaders (c.calls ks).2 = takeOnce d (takeCount ks) := by
  induction ks with
  | nil => intro c _; rfl
  | cons k ks ih =>
    intro c hc
    have hl := StreamContainer.call_loader c k
    rw [StreamContainer.calls_taken_cons, takeCount_cons]
    by_cases hk : k = StreamCall.TakeTransferrableURLLoader
    · rw [if_pos hk] at hl
      rw [StreamContainer.calls_taken_of_null ks _ hl, hc]
      simp [hk, takeOnce]
    · rw [if_neg hk] at hl
      rw [ih _ (hl.trans hc)]
      simp [hk]

/-- A run of calls on a container without a stream leaves every member but
`transferrable_loader_` alone. -/
theorem StreamContainer.calls_of_no_stream (ks : List StreamCall) :
    ∀ c : StreamContainer, c.stream_ = none →
      (c.calls ks).1 = { c with transferrable_loader_ := (c.calls ks).1.transferrable_loader_ } := by
  induction ks with
  | nil => intro c _; rfl
  | cons k ks ih =>
    intro c hc
    have h1 := StreamContainer.call_of_no_stream c k hc
    have hs : (c.call k).1.stream_ = none := by rw [h1]; exact hc
    have h2 := ih _ hs
    simp only [StreamContainer.calls]
    rw [h2, h1]

/-- C1. Take-once handoff. A container built from a transferrable loader `d`
and no stream exists for every choice of the other constructor arguments, and
over every sequence of `Abort`, `GetWeakPtr` and `TakeTransferrableURLLoader`
calls on it the takes return `d` the first time and null every later time,
while `mime_type_`, `original_url_`, `stream_url_` and `response_headers_`
stay as constructed. -/
theorem StreamContainer.take_transferrable_loader_once (d : TransferrableURLLoader)
    (tab_id : Int) (embedded : Bool) (handler_url : GURL) (extension_id : String)
    (original_url : GURL) (ks : List StreamCall) :
    ∃ c : StreamContainer,
      StreamContainer.ctor none tab_id embedded handler_url extension_id (some d) original_url
        = some c ∧
      takenLoaders (c.calls ks).2 = takeOnce d (takeCount ks) ∧
      (c.calls ks).1.mime_type_ = c.mime_type_ ∧
      (c.calls ks).1.original_url_ = c.original_url_ ∧
      (c.calls ks).1.stream_url_ = c.stream_url_ ∧
      (c.calls ks).1.response_headers_ = c.response_headers_ := by
  refine ⟨_, rfl, StreamContainer.calls_taken_of_loader d ks _ rfl, ?_⟩
  have h := StreamContainer.calls_of_no_stream ks
    { stream_ := none, embedded_ := embedded, tab_id_ := tab_id, handler_url_ := handler_url,
      extension_id_ := extension_id, transferrable_loader_ := some d,
      mime_type_ := d.head.mime_type, original_url_ := original_url, stream_url_ := d.url,
      response_headers_ := d.head.headers } rfl
  refine ⟨?_, ?_, ?_, ?_⟩ <;> rw [h]

/-- C5. `Abort` on a container whose stream has a live handle adds the callback
to the handle as a close listener and resets the handle, without running the
callback; afterwards `stream_url_` is empty, the handle is gone and every other
member is as before. A second `Abort` runs its callback at once, exactly once,
and changes no member. -/
theorem StreamContainer.abort_live_then_again (c : StreamContainer) (s : StreamInfo)
    (h : StreamHandle) (cb cb2 : Closure) (hs : c.stream_ = some s) (hh : s.handle = some h) :
    c.Abort cb =
      ({ c with stream_ := some { s with handle := none }, stream_url_ := GURL.empty },
        [StreamEffect.AddCloseListener h cb, StreamEffect.reset h]) ∧
    StreamEffect.Run cb ∉ (c.Abort cb).2 ∧
    (c.Abort cb).1.stream_url_ = GURL.empty ∧
    (c.Abort cb).1.Abort cb2 = ((c.Abort cb).1, [StreamEffect.Run cb2]) ∧
    ((c.Abort cb).1.Abort cb2).1.stream_url_ = GURL.empty := by
  have h1 : c.Abort cb =
      ({ c with stream_ := some { s with handle := none }, stream_url_ := GURL.empty },
        [StreamEffect.AddCloseListener h cb, StreamEffect.reset h]) := by
    simp [StreamContainer.Abort, hs, hh]
  have h2 : (c.Abort cb).1.Abort cb2 = ((c.Abort cb).1, [StreamEffect.Run cb2]) := by
    rw [h1]; simp [StreamContainer.Abort]
  refine ⟨h1, ?_, ?_, h2, ?_⟩
  · rw [h1]; simp
  · rw [h1]
  · rw [h2, h1]

/-- The sample container is what the constructor builds from the sample stream,
and `Abort` on it behaves as C5 says. -/
theorem StreamContainer.abort_live_then_again_witness :
    StreamContainer.ctor (some sampleStream) 7 true ⟨"https://handler.example/view"⟩ "handler"
        none ⟨"https://other.example/"⟩ = some sampleStreamContainer ∧
    (sampleStreamContainer.Abort ⟨1⟩).2 =
      [StreamEffect.AddCloseListener sampleHandle ⟨1⟩, StreamEffect.reset sampleHandle] ∧
    (sampleStreamContainer.Abort ⟨1⟩).1.stream_url_ = GURL.empty ∧
    ((sampleStreamContainer.Abort ⟨1⟩).1.Abort ⟨2⟩).2 = [StreamEffect.Run ⟨2⟩] :=
  have h := StreamContainer.abort_live_then_again sampleStreamContainer sampleStream
    sampleHandle ⟨1⟩ ⟨2⟩ rfl rfl
  ⟨rfl, congrArg Prod.snd h.1, h.2.2.1, congrArg Prod.snd h.2.2.2.1⟩

/-- C6, as stated, fails. Two constructions from the sample loader, without a
stream, that differ only in the `original_url` argument give containers whose
`original_url_` is that argument, so they differ; hence no function of the
loader alone gives the `original_url_` of the containers built from it. -/
theorem StreamContainer.ctor_original_url_not_from_loader :
    (StreamContainer.ctor none 0 false ⟨""⟩ "" (some sampleLoader) ⟨"https://a.example/"⟩).map
        (fun c => c.original_url_) = some ⟨"https://a.example/"⟩ ∧
    (StreamContainer.ctor none 0 false ⟨""⟩ "" (some sampleLoader) ⟨"https://b.example/"⟩).map
        (fun c => c.original_url_) = some ⟨"https://b.example/"⟩ ∧
    ¬ ∃ f : TransferrableURLLoader → GURL,
      ∀ (d : TransferrableURLLoader) (tab_id : Int) (embedded : Bool) (handler_url : GURL)
        (extension_id : String) (original_url : GURL) (c : StreamContainer),
        StreamContainer.ctor none tab_id embedded handler_url extension_id (some d) original_url
          = some c →
        c.original_url_ = f d := by
  refine ⟨rfl, rfl, ?_⟩
  rintro ⟨f, hf⟩
  have ha := hf sampleLoader 0 false ⟨""⟩ "" ⟨"https://a.example/"⟩ _ rfl
  have hb := hf sampleLoader 0 false ⟨""⟩ "" ⟨"https://b.example/"⟩ _ rfl
  have hab := ha.trans hb.symm
  simp at hab

/-- C6, amended. A container built from a stream with a live handle takes
`mime_type_`, `original_url_` and `stream_url_` from the stream's mime type,
original URL and handle URL, whatever the loader and `original_url` arguments
are. A container built from a loader and no stream takes `mime_type_` from the
loader's response head, `stream_url_` from the loader's own `url` and
`original_url_` from the `original_url` argument. Both constructions succeed. -/
theorem StreamContainer.ctor_fields (s : StreamInfo) (h : StreamHandle)
    (d : TransferrableURLLoader) (loader : Option TransferrableURLLoader) (tab_id : Int)
    (embedded : Bool) (handler_url : GURL) (extension_id : String) (original_url : GURL)
    (hh : s.handle = some h) :
    (∃ c : StreamContainer,
      StreamContainer.ctor (some s) tab_id embedded handler_url extension_id loader original_url
        = some c ∧
      c.mime_type_ = s.mime_type ∧ c.original_url_ = s.original_url ∧ c.stream_url_ = h.url) ∧
    (∃ c : StreamContainer,
      StreamContainer.ctor none tab_id embedded handler_url extension_id (some d) original_url
        = some c ∧
      c.mime_type_ = d.head.mime_type ∧ c.original_url_ = original_url ∧ c.stream_url_ = d.url) := by
  constructor
  · simp [StreamContainer.ctor, hh]
  · exact ⟨_, rfl, rfl, rfl, rfl⟩

/-- The amended C6 at the sample stream and the sample loader. -/
theorem StreamContainer.ctor_fields_witness :
    sampleStream.handle = some sampleHandle ∧
    (∃ c : StreamContainer,
      StreamContainer.ctor (some sampleStream) 7 true ⟨"h"⟩ "handler" none ⟨"o"⟩ = some c ∧
      c.mime_type_ = sampleStream.mime_type ∧ c.original_url_ = sampleStream.original_url ∧
      c.stream_url_ = sampleHandle.url) ∧
    (∃ c : StreamContainer,
      StreamContainer.ctor none 7 true ⟨"h"⟩ "handler" (some sampleLoader) ⟨"o"⟩ = some c ∧
      c.mime_type_ = sampleLoader.head.mime_type ∧ c.original_url_ = ⟨"o"⟩ ∧
      c.stream_url_ = sampleLoader.url) :=
  ⟨rfl, StreamContainer.ctor_fields sampleStream sampleHandle sampleLoader none 7 true ⟨"h"⟩
    "handler" ⟨"o"⟩ rfl⟩

/-! ## MimeHandlerViewGuest: theorems -/

/-- What `SetFullscreenState` does, in closed form: it returns true exactly for
a full-page guest asked for a state that differs from both flags; the guest
flag follows the request for a full-page guest, the embedder flag only when
true is returned. -/
theorem MimeHandlerViewGuest.SetFullscreenState_eq (g : MimeHandlerViewGuest) (r : Bool) :
    g.SetFullscreenState r =
      ({ g with
          is_guest_fullscreen_ :=
            if g.is_full_page_plugin = true ∧ r ≠ g.is_guest_fullscreen_ then r
            else g.is_guest_fullscreen_
          is_embedder_fullscreen_ :=
            if g.is_full_page_plugin = true ∧ r ≠ g.is_guest_fullscreen_ ∧
                r ≠ g.is_embedder_fullscreen_ then r
            else g.is_embedder_fullscreen_ },
        decide (g.is_full_page_plugin = true ∧ r ≠ g.is_guest_fullscreen_ ∧
          r ≠ g.is_embedder_fullscreen_)) := by
  obtain ⟨⟨p, a⟩, st, pid, rid, wid, gf, ef, cs⟩ := g
  cases r <;> cases p <;> cases gf <;> cases ef <;>
    simp [MimeHandlerViewGuest.SetFullscreenState]

/-- C2. A guest-initiated fullscreen request for `r` (`EnterFullscreenModeForTab`
for true, `ExitFullscreenModeForTab` for false) calls the embedder delegate,
once, exactly when the guest is a full-page plugin and `r` differs from both
flags, and otherwise calls nothing. Afterwards the guest flag is `r` if the
guest is full-page and `r` differed from it, the embedder flag is `r` if the
request was forwarded, and nothing else has changed. For a guest that is not
full-page the request changes nothing and calls nothing. -/
theorem MimeHandlerViewGuest.fullscreen_request (g : MimeHandlerViewGuest) (r : Bool)
    (origin : GURL) (options : WebFullscreenOptions) :
    ((if r = true then g.EnterFullscreenModeForTab origin options
        else g.ExitFullscreenModeForTab).2 =
      if g.is_full_page_plugin = true ∧ r ≠ g.is_guest_fullscreen_ ∧
          r ≠ g.is_embedder_fullscreen_ then
        [if r = true then GuestEffect.EnterFullscreenModeForTab origin options
          else GuestEffect.ExitFullscreenModeForTab]
      else []) ∧
    ((if r = true then g.EnterFullscreenModeForTab origin options
        else g.ExitFullscreenModeForTab).1 =
      { g with
          is_guest_fullscreen_ :=
            if g.is_full_page_plugin = true ∧ r ≠ g.is_guest_fullscreen_ then r
            else g.is_guest_fullscreen_
          is_embedder_fullscreen_ :=
            if g.is_full_page_plugin = true ∧ r ≠ g.is_guest_fullscreen_ ∧
                r ≠ g.is_embedder_fullscreen_ then r
            else g.is_embedder_fullscreen_ }) ∧
    (g.is_full_page_plugin = false →
      (if r = true then g.EnterFullscreenModeForTab origin options
        else g.ExitFullscreenModeForTab) = (g, [])) := by
  obtain ⟨⟨p, a⟩, st, pid, rid, wid, gf, ef, cs⟩ := g
  cases r <;> cases p <;> cases gf <;> cases ef <;>
    simp [MimeHandlerViewGuest.EnterFullscreenModeForTab,
      MimeHandlerViewGuest.ExitFullscreenModeForTab, MimeHandlerViewGuest.SetFullscreenState]

/-- The request of C2 on an embedded guest that is already marked fullscreen on
both sides: it stays as it is and the delegate is not called. -/
theorem MimeHandlerViewGuest.fullscreen_request_witness :
    sampleEmbeddedGuest.ExitFullscreenModeForTab = (sampleEmbeddedGuest, []) :=
  (MimeHandlerViewGuest.fullscreen_request sampleEmbeddedGuest false ⟨""⟩ ⟨0⟩).2.2 rfl

/-- C3. On a full-page guest `EmbedderFullscreenToggled(false)` leaves both
flags false and calls nothing outward; `EmbedderFullscreenToggled(true)` sets
the embedder flag, keeps the guest flag and calls nothing. From both flags
false, `EnterFullscreenModeForTab` calls the delegate once and sets both flags,
a second one calls nothing and changes nothing, and
`EmbedderFullscreenToggled(false)` then clears both flags; the whole run makes
exactly one outward call. -/
theorem MimeHandlerViewGuest.embedder_toggle_breaks_echo (g : MimeHandlerViewGuest)
    (origin : GURL) (options : WebFullscreenOptions) (hp : g.is_full_page_plugin = true) :
    g.EmbedderFullscreenToggled false =
      ({ g with is_guest_fullscreen_ := false, is_embedder_fullscreen_ := false }, []) ∧
    g.EmbedderFullscreenToggled true = ({ g with is_embedder_fullscreen_ := true }, []) ∧
    (g.is_guest_fullscreen_ = false → g.is_embedder_fullscreen_ = false →
      g.EnterFullscreenModeForTab origin options =
        ({ g with is_guest_fullscreen_ := true, is_embedder_fullscreen_ := true },
          [GuestEffect.EnterFullscreenModeForTab origin options]) ∧
      (g.EnterFullscreenModeForTab origin options).1.EnterFullscreenModeForTab origin options =
        ({ g with is_guest_fullscreen_ := true, is_embedder_fullscreen_ := true }, []) ∧
      (g.EnterFullscreenModeForTab origin options).1.EmbedderFullscreenToggled false =
        ({ g with is_guest_fullscreen_ := false, is_embedder_fullscreen_ := false }, []) ∧
      g.calls [FullscreenCall.EnterFullscreenModeForTab origin options,
          FullscreenCall.EnterFullscreenModeForTab origin options,
          FullscreenCall.EmbedderFullscreenToggled false] =
        ({ g with is_guest_fullscreen_ := false, is_embedder_fullscreen_ := false },
          [GuestEffect.EnterFullscreenModeForTab origin options])) := by
  obtain ⟨⟨p, a⟩, st, pid, rid, wid, gf, ef, cs⟩ := g
  simp only at hp
  subst hp
  cases gf <;> cases ef <;>
    simp [MimeHandlerViewGuest.EmbedderFullscreenToggled, MimeHandlerViewGuest.calls,
      MimeHandlerViewGuest.call, MimeHandlerViewGuest.EnterFullscreenModeForTab,
      MimeHandlerViewGuest.SetFullscreenState]

/-- The run of C3 on the sample full-page guest: one outward call, and the guest
ends where it started. -/
theorem MimeHandlerViewGuest.embedder_toggle_breaks_echo_witness :
    sampleGuest.calls [FullscreenCall.EnterFullscreenModeForTab ⟨"https://o.example/"⟩ ⟨0⟩,
        FullscreenCall.EnterFullscreenModeForTab ⟨"https://o.example/"⟩ ⟨0⟩,
        FullscreenCall.EmbedderFullscreenToggled false] =
      (sampleGuest, [GuestEffect.EnterFullscreenModeForTab ⟨"https://o.example/"⟩ ⟨0⟩]) :=
  ((MimeHandlerViewGuest.embedder_toggle_breaks_echo sampleGuest ⟨"https://o.example/"⟩ ⟨0⟩
    rfl).2.2 rfl rfl).2.2.2

/-- A run over two sequences in a row ends where the second run, started from
the end of the first, ends. -/
theorem MimeHandlerViewGuest.calls_append (ks ks2 : List FullscreenCall) :
    ∀ g : MimeHandlerViewGuest, (g.calls (ks ++ ks2)).1 = ((g.calls ks).1.calls ks2).1 := by
  induction ks with
  | nil => intro g; rfl
  | cons k ks ih => intro g; exact ih (g.call k).1

/-- The flag states a run can pass through: a guest that is not full-page has
the guest flag clear, and a set guest flag comes with a set embedder flag. -/
theorem MimeHandlerViewGuest.call_flags (g : MimeHandlerViewGuest) (k : FullscreenCall)
    (h : (g.is_full_page_plugin = false → g.is_guest_fullscreen_ = false) ∧
      (g.is_guest_fullscreen_ = true → g.is_embedder_fullscreen_ = true)) :
    ((g.call k).1.is_full_page_plugin = false → (g.call k).1.is_guest_fullscreen_ = false) ∧
    ((g.call k).1.is_guest_fullscreen_ = true → (g.call k).1.is_embedder_fullscreen_ = true) := by
  obtain ⟨⟨p, a⟩, st, pid, rid, wid, gf, ef, cs⟩ := g
  cases k with
  | EnterFullscreenModeForTab origin options =>
    revert h
    cases p <;> cases gf <;> cases ef <;>
      simp [MimeHandlerViewGuest.call, MimeHandlerViewGuest.EnterFullscreenModeForTab,
        MimeHandlerViewGuest.SetFullscreenState]
  | ExitFullscreenModeForTab =>
    revert h
    cases p <;> cases gf <;> cases ef <;>
      simp [MimeHandlerViewGuest.call, MimeHandlerViewGuest.ExitFullscreenModeForTab,
        MimeHandlerViewGuest.SetFullscreenState]
  | EmbedderFullscreenToggled b =>
    revert h
    cases b <;> cases p <;> cases gf <;> cases ef <;>
      simp [MimeHandlerViewGuest.call, MimeHandlerViewGuest.EmbedderFullscreenToggled,
        MimeHandlerViewGuest.SetFullscreenState]

/-- The flag states of `call_flags` are kept by every run. -/
theorem MimeHandlerViewGuest.calls_flags (ks : List FullscreenCall) :
    ∀ g : MimeHandlerViewGuest,
      ((g.is_full_page_plugin = false → g.is_guest_fullscreen_ = false) ∧
        (g.is_guest_fullscreen_ = true → g.is_embedder_fullscreen_ = true)) →
      (((g.calls ks).1.is_full_page_plugin = false → (g.calls ks).1.is_guest_fullscreen_ = false) ∧
        ((g.calls ks).1.is_guest_fullscreen_ = true →
          (g.calls ks).1.is_embedder_fullscreen_ = true)) := by
  induction ks with
  | nil => intro g h; exact h
  | cons k ks ih =>
    intro g h
    exact ih _ (MimeHandlerViewGuest.call_flags g k h)

/-- After `EmbedderFullscreenToggled(false)` both flags are false, unless the
guest flag was set on a guest that is not full-page. -/
theorem MimeHandlerViewGuest.toggled_off_flags (g : MimeHandlerViewGuest)
    (h : g.is_full_page_plugin = false → g.is_guest_fullscreen_ = false) :
    (g.EmbedderFullscreenToggled false).1.is_guest_fullscreen_ = false ∧
    (g.EmbedderFullscreenToggled false).1.is_embedder_fullscreen_ = false := by
  obtain ⟨⟨p, a⟩, st, pid, rid, wid, gf, ef, cs⟩ := g
  revert h
  cases p <;> cases gf <;> cases ef <;>
    simp [MimeHandlerViewGuest.EmbedderFullscreenToggled, MimeHandlerViewGuest.SetFullscreenState]

/-- C4, as stated, fails: on the freshly constructed sample guest, with both
flags false, `EmbedderFullscreenToggled(true)` leaves the guest flag false and
the embedder flag true, so the flags are not equal after every
`EmbedderFullscreenToggled` call. -/
theorem MimeHandlerViewGuest.flags_differ_after_toggle_on :
    sampleGuest.is_guest_fullscreen_ = false ∧ sampleGuest.is_embedder_fullscreen_ = false ∧
    (sampleGuest.EmbedderFullscreenToggled true).1.is_guest_fullscreen_ = false ∧
    (sampleGuest.EmbedderFullscreenToggled true).1.is_embedder_fullscreen_ = true ∧
    ¬ ∀ (g : MimeHandlerViewGuest) (ks : List FullscreenCall) (b : Bool),
      g.is_guest_fullscreen_ = false → g.is_embedder_fullscreen_ = false →
      (g.calls (ks ++ [FullscreenCall.EmbedderFullscreenToggled b])).1.is_guest_fullscreen_ =
        (g.calls (ks ++ [FullscreenCall.EmbedderFullscreenToggled b])).1.is_embedder_fullscreen_ := by
  refine ⟨rfl, rfl, rfl, rfl, ?_⟩
  intro h
  have h1 := h sampleGuest [] true rfl rfl
  exact absurd h1 (by decide)

/-- C4, amended. Start from both flags false and run any finite sequence of
`EnterFullscreenModeForTab`, `ExitFullscreenModeForTab` and
`EmbedderFullscreenToggled` calls. After every call, a set guest flag comes with
a set embedder flag, so the flags can differ only as guest false, embedder
true. After every `EmbedderFullscreenToggled(false)` both flags are false.
After every `EmbedderFullscreenToggled(true)` the embedder flag is true and the
guest flag is what it was before the call. The proof uses the start value of
the guest flag only. -/
theorem MimeHandlerViewGuest.fullscreen_flags_invariant (g : MimeHandlerViewGuest)
    (ks : List FullscreenCall) (hg : g.is_guest_fullscreen_ = false)
    (_he : g.is_embedder_fullscreen_ = false) :
    ((g.calls ks).1.is_guest_fullscreen_ = true →
      (g.calls ks).1.is_embedder_fullscreen_ = true) ∧
    ((g.calls (ks ++ [FullscreenCall.EmbedderFullscreenToggled false])).1.is_guest_fullscreen_
        = false ∧
      (g.calls (ks ++ [FullscreenCall.EmbedderFullscreenToggled false])).1.is_embedder_fullscreen_
        = false) ∧
    ((g.calls (ks ++ [FullscreenCall.EmbedderFullscreenToggled true])).1.is_embedder_fullscreen_
        = true ∧
      (g.calls (ks ++ [FullscreenCall.EmbedderFullscreenToggled true])).1.is_guest_fullscreen_
        = (g.calls ks).1.is_guest_fullscreen_) := by
  have hstart : (g.is_full_page_plugin = false → g.is_guest_fullscreen_ = false) ∧
      (g.is_guest_fullscreen_ = true → g.is_embedder_fullscreen_ = true) :=
    ⟨fun _ => hg, fun h => by rw [hg] at h; cases h⟩
  have hrun := MimeHandlerViewGuest.calls_flags ks g hstart
  refine ⟨hrun.2, ?_, ?_⟩
  · rw [MimeHandlerViewGuest.calls_append]
    exact MimeHandlerViewGuest.toggled_off_flags _ hrun.1
  · rw [MimeHandlerViewGuest.calls_append]
    simp [MimeHandlerViewGuest.calls, MimeHandlerViewGuest.call,
      MimeHandlerViewGuest.EmbedderFullscreenToggled]

/-- The amended C4 on the sample guest, over a run that enters fullscreen and is
then toggled by the embedder. -/
theorem MimeHandlerViewGuest.fullscreen_flags_invariant_witness :
    (sampleGuest.calls ([FullscreenCall.EnterFullscreenModeForTab ⟨""⟩ ⟨0⟩] ++
        [FullscreenCall.EmbedderFullscreenToggled false])).1.is_guest_fullscreen_ = false ∧
    (sampleGuest.calls ([FullscreenCall.EnterFullscreenModeForTab ⟨""⟩ ⟨0⟩] ++
        [FullscreenCall.EmbedderFullscreenToggled false])).1.is_embedder_fullscreen_ = false :=
  (MimeHandlerViewGuest.fullscreen_flags_invariant sampleGuest
    [FullscreenCall.EnterFullscreenModeForTab ⟨""⟩ ⟨0⟩] rfl rfl).2.1

/-- One fullscreen entry point keeps the cached embedder frame routing id. -/
theorem MimeHandlerViewGuest.call_routing_id (g : MimeHandlerViewGuest) (k : FullscreenCall) :
    (g.call k).1.embedder_frame_routing_id_ = g.embedder_frame_routing_id_ := by
  obtain ⟨⟨p, a⟩, st, pid, rid, wid, gf, ef, cs⟩ := g
  cases k with
  | EnterFullscreenModeForTab origin options =>
    cases p <;> cases gf <;> cases ef <;>
      simp [MimeHandlerViewGuest.call, MimeHandlerViewGuest.EnterFullscreenModeForTab,
        MimeHandlerViewGuest.SetFullscreenState]
  | ExitFullscreenModeForTab =>
    cases p <;> cases gf <;> cases ef <;>
      simp [MimeHandlerViewGuest.call, MimeHandlerViewGuest.ExitFullscreenModeForTab,
        MimeHandlerViewGuest.SetFullscreenState]
  | EmbedderFullscreenToggled b =>
    cases b <;> cases p <;> cases gf <;> cases ef <;>
      simp [MimeHandlerViewGuest.call, MimeHandlerViewGuest.EmbedderFullscreenToggled,
        MimeHandlerViewGuest.SetFullscreenState]

/-- A run of fullscreen entry points keeps the cached embedder frame routing id. -/
theorem MimeHandlerViewGuest.calls_routing_id (ks : List FullscreenCall) :
    ∀ g : MimeHandlerViewGuest,
      (g.calls ks).1.embedder_frame_routing_id_ = g.embedder_frame_routing_id_ := by
  induction ks with
  | nil => intro g; rfl
  | cons k ks ih =>
    intro g
    exact (ih (g.call k).1).trans (MimeHandlerViewGuest.call_routing_id g k)

/-- C7. `OnRenderFrameHostDeleted(process_id, routing_id)` calls
`Destroy(true)`, once, exactly when both ids equal the cached embedder frame
ids; for every other pair it calls nothing. It writes no member itself. -/
theorem MimeHandlerViewGuest.on_render_frame_host_deleted (g : MimeHandlerViewGuest)
    (process_id routing_id : Int) :
    ((g.OnRenderFrameHostDeleted process_id routing_id).2 = [GuestEffect.Destroy true] ↔
      (process_id = g.embedder_frame_process_id_ ∧ routing_id = g.embedder_frame_routing_id_)) ∧
    ((g.OnRenderFrameHostDeleted process_id routing_id).2 = [] ↔
      ¬ (process_id = g.embedder_frame_process_id_ ∧
        routing_id = g.embedder_frame_routing_id_)) ∧
    (g.OnRenderFrameHostDeleted process_id routing_id).1 = g := by
  unfold MimeHandlerViewGuest.OnRenderFrameHostDeleted
  by_cases h : process_id = g.embedder_frame_process_id_ ∧
      routing_id = g.embedder_frame_routing_id_
  · simp [h]
  · simp [h]

/-- C8. `SetEmbedderFrame` fails when `routing_id` is `MSG_ROUTING_NONE`. When
a call succeeds, the cached routing id is what was passed and is not
`MSG_ROUTING_NONE`, and every later `SetEmbedderFrame` on that guest fails,
for all arguments and frame tables, also after any run of fullscreen calls in
between. On a freshly constructed guest a call does succeed when the routing
id is not the sentinel and the frame is live with a view whose widget routing
id is not the sentinel. -/
theorem MimeHandlerViewGuest.set_embedder_frame_once (MSG_ROUTING_NONE : Int) :
    (∀ (FromID : Int → Int → Option RenderFrameHost) (g : MimeHandlerViewGuest)
        (process_id : Int),
      g.SetEmbedderFrame MSG_ROUTING_NONE FromID process_id MSG_ROUTING_NONE = none) ∧
    (∀ (FromID : Int → Int → Option RenderFrameHost) (g g2 : MimeHandlerViewGuest)
        (process_id routing_id : Int),
      g.SetEmbedderFrame MSG_ROUTING_NONE FromID process_id routing_id = some g2 →
      g2.embedder_frame_routing_id_ = routing_id ∧
      g2.embedder_frame_routing_id_ ≠ MSG_ROUTING_NONE ∧
      ∀ (ks : List FullscreenCall) (FromID2 : Int → Int → Option RenderFrameHost)
          (process_id2 routing_id2 : Int),
        (g2.calls ks).1.SetEmbedderFrame MSG_ROUTING_NONE FromID2 process_id2 routing_id2
          = none) ∧
    (∀ (kInvalidUniqueID : Int) (base : GuestViewBase)
        (FromID : Int → Int → Option RenderFrameHost) (process_id routing_id : Int)
        (view : RenderWidgetHostView),
      routing_id ≠ MSG_ROUTING_NONE → FromID process_id routing_id = some ⟨some view⟩ →
      view.widget_routing_id ≠ MSG_ROUTING_NONE →
      ∃ g2 : MimeHandlerViewGuest,
        (MimeHandlerViewGuest.ctor kInvalidUniqueID MSG_ROUTING_NONE base).SetEmbedderFrame
          MSG_ROUTING_NONE FromID process_id routing_id = some g2) := by
  refine ⟨fun FromID g process_id => by simp [MimeHandlerViewGuest.SetEmbedderFrame], ?_, ?_⟩
  case refine_2 =>
    intro kInvalidUniqueID base FromID process_id routing_id view hr hf hv
    simp [MimeHandlerViewGuest.SetEmbedderFrame, MimeHandlerViewGuest.ctor,
      MimeHandlerViewGuest.GetEmbedderFrame, hf, Ne.symm hr, Ne.symm hv]
  intro FromID g g2 process_id routing_id h
  have hrid : g2.embedder_frame_routing_id_ = routing_id ∧ MSG_ROUTING_NONE ≠ routing_id := by
    unfold MimeHandlerViewGuest.SetEmbedderFrame at h
    by_cases h1 : MSG_ROUTING_NONE = routing_id
    · simp [h1] at h
    · by_cases h2 : MSG_ROUTING_NONE ≠ g.embedder_frame_routing_id_
      · simp [h1, h2] at h
      · simp only [h1, h2, if_false] at h
        split at h
        · cases h
        · simp only [Option.some.injEq] at h
          subst h
          refine ⟨?_, h1⟩
          simp only [MimeHandlerViewGuest.GetEmbedderFrame]
          split
          · split <;> rfl
          · rfl
  refine ⟨hrid.1, fun hn => hrid.2 (hn.symm.trans hrid.1), ?_⟩
  intro ks FromID2 process_id2 routing_id2
  have hkeep : (g2.calls ks).1.embedder_frame_routing_id_ = g2.embedder_frame_routing_id_ :=
    MimeHandlerViewGuest.calls_routing_id ks g2
  unfold MimeHandlerViewGuest.SetEmbedderFrame
  rw [hkeep, hrid.1]
  simp [hrid.2]

/-- The first `SetEmbedderFrame` on a fresh guest succeeds when the frame is
live, and C8 then makes a second call fail. -/
theorem MimeHandlerViewGuest.set_embedder_frame_once_witness :
    sampleGuest.SetEmbedderFrame (-2) sampleFromID 1 2 = some sampleFramedGuest ∧
    sampleFramedGuest.SetEmbedderFrame (-2) sampleFromID 3 4 = none :=
  ⟨by decide,
    ((MimeHandlerViewGuest.set_embedder_frame_once (-2)).2.1 sampleFromID sampleGuest
      sampleFramedGuest 1 2 (by decide)).2.2 [] sampleFromID 3 4⟩

/-- C9. `PluginDoSave` on a guest that holds a stream container returns true
exactly when the guest is attached and `plugin_can_save_` is set. When it
returns true it dispatches one event to `kPdfExtensionId`, the save event
whose only argument is the spec of the container's current `stream_url_`;
when it returns false it dispatches nothing. It changes no member. A guest
that is not attached or may not save gets false and no event even without a
container. -/
theorem MimeHandlerViewGuest.plugin_do_save (MIME_HANDLER_PRIVATE_SAVE : Nat)
    (kEventName kPdfExtensionId : String) (g : MimeHandlerViewGuest) :
    (∀ c : StreamContainer, g.stream_ = some c →
      g.PluginDoSave MIME_HANDLER_PRIVATE_SAVE kEventName kPdfExtensionId =
        some (g, g.attached && g.plugin_can_save_,
          if g.attached = true ∧ g.plugin_can_save_ = true then
            [GuestEffect.DispatchEventToExtension kPdfExtensionId
              ⟨MIME_HANDLER_PRIVATE_SAVE, kEventName, [c.stream_url_.spec]⟩]
          else [])) ∧
    (¬ (g.attached = true ∧ g.plugin_can_save_ = true) →
      g.PluginDoSave MIME_HANDLER_PRIVATE_SAVE kEventName kPdfExtensionId =
        some (g, false, [])) := by
  constructor
  · intro c hc
    unfold MimeHandlerViewGuest.PluginDoSave
    cases ha : g.attached <;> cases hs : g.plugin_can_save_ <;> simp [hc]
  · intro h
    unfold MimeHandlerViewGuest.PluginDoSave
    cases ha : g.attached <;> cases hs : g.plugin_can_save_ <;> simp_all

/-- C9 on the sample guest: attached and allowed to save, it dispatches one
event that carries the sample stream URL; once `plugin_can_save_` is cleared it
dispatches nothing. -/
theorem MimeHandlerViewGuest.plugin_do_save_witness :
    sampleSavingGuest.PluginDoSave 0 "onSave" "pdf" =
      some (sampleSavingGuest, true,
        [GuestEffect.DispatchEventToExtension "pdf" ⟨0, "onSave", ["blob:stream/1"]⟩]) ∧
    sampleGuest.PluginDoSave 0 "onSave" "pdf" = some (sampleGuest, false, []) :=
  ⟨(MimeHandlerViewGuest.plugin_do_save 0 "onSave" "pdf" sampleSavingGuest).1
      sampleStreamContainer rfl,
    (MimeHandlerViewGuest.plugin_do_save 0 "onSave" "pdf" sampleGuest).2 (by decide)⟩

/-- C10. `PreHandleGestureEvent` returns true exactly when the event is of a
pinch type and the guest is not a full-page plugin: a pinch on a full-page
guest and every other gesture on any guest give false. -/
theorem MimeHandlerViewGuest.pre_handle_gesture_event (IsPinchGestureEventType : Nat → Bool)
    (g : MimeHandlerViewGuest) (event : WebGestureEvent) :
    g.PreHandleGestureEvent IsPinchGestureEventType event =
      (IsPinchGestureEventType event.GetType && !g.is_full_page_plugin) ∧
    (g.PreHandleGestureEvent IsPinchGestureEventType event = true ↔
      (IsPinchGestureEventType event.GetType = true ∧ g.is_full_page_plugin = false)) := by
  unfold MimeHandlerViewGuest.PreHandleGestureEvent
  cases IsPinchGestureEventType event.GetType <;> cases g.is_full_page_plugin <;> simp

end extensions
